import Mathlib

/-!
Shallow embedding of the hyakvnc session manager (the v2.0 revision in
src/src/hyakvnc.py; the superseded v1.1 revision at src/hyakvnc.py is noted
in comments where a claim cites it).  External systems (squeue, salloc,
scontrol listpids, ps, vncserver, netstat, ssh, rm, the shared home
filesystem) are modelled by their observable outputs: lists of output lines,
lookup functions, and explicit state records.  All line parsers mirror the
Python regular expressions of the source on space-separated ASCII lines
(the regexes use a generic whitespace class; the modelled separator is the
space character, which is what all the quoted sample outputs contain).
-/

namespace Hyakvnc

/-- Module constant `BASE_VNC_PORT = 5900` (hyakvnc.py line 168). -/
def BASE_VNC_PORT : Nat := 5900

/-- Does the character list `hay` start with `needle`? -/
def charsHasPrefix : List Char → List Char → Bool
  | _, [] => true
  | [], _ :: _ => false
  | h :: t, n :: m => h == n && charsHasPrefix t m

/-- Does `needle` occur as a contiguous sublist of `hay`?  This models the
Python substring test `needle in hay`. -/
def charsContains : List Char → List Char → Bool
  | [], needle => needle.isEmpty
  | h :: t, needle => charsHasPrefix (h :: t) needle || charsContains t needle

/-- Python `needle in hay` on strings. -/
def containsStr (hay needle : String) : Bool :=
  charsContains hay.data needle.data

/-- String prefix test (used for `re.match` with a plain-text pattern). -/
def strHasPrefix (s p : String) : Bool :=
  charsHasPrefix s.data p.data

/-- String suffix test, used to model the shell glob pattern matching of
names ending in a fixed extension. -/
def strEndsWith (s p : String) : Bool :=
  charsHasPrefix s.data.reverse p.data.reverse

/-- Drop the prefix `p` from `cs`, or fail when `cs` does not start with it. -/
def dropPrefixChars : List Char → List Char → Option (List Char)
  | cs, [] => some cs
  | [], _ :: _ => none
  | c :: cs, p :: ps => if c == p then dropPrefixChars cs ps else none

/-- Numeric value of a list of decimal digit characters. -/
def charsToNat (cs : List Char) : Nat :=
  cs.foldl (fun n c => n * 10 + (c.toNat - 48)) 0

/-- Leading run of decimal digits. -/
def takeDigitsChars (cs : List Char) : List Char :=
  cs.takeWhile Char.isDigit

/-- Is `s` a nonempty string of decimal digits? -/
def allDigits (s : String) : Bool :=
  !s.data.isEmpty && s.data.all Char.isDigit

/-- Python `int(s)` restricted to nonempty digit strings; `none` models the
`ValueError` raised on anything else (leading sign and whitespace forms do
not occur in the modelled process listings). -/
def parseNat (s : String) : Option Nat :=
  if allDigits s then some (charsToNat s.data) else none

/-- Split a character list into maximal runs of non-space characters. -/
def tokenizeAux : List Char → List Char → List (List Char)
  | [], cur => if cur.isEmpty then [] else [cur.reverse]
  | c :: rest, cur =>
    if c == ' ' then
      if cur.isEmpty then tokenizeAux rest [] else cur.reverse :: tokenizeAux rest []
    else tokenizeAux rest (c :: cur)

/-- Whitespace-separated tokens of a line. -/
def tokens (s : String) : List String :=
  (tokenizeAux s.data []).map (fun l => String.mk l)

/-- Parser for the salloc id lines (reserve_node, hyakvnc.py lines 694-706):
`salloc: Pending job allocation 864875` / `salloc: Granted job allocation
864875`, anchored at the start of the line, capturing the job id digits. -/
def parseAllocLine (line : String) : Option String :=
  match dropPrefixChars line.data "salloc: Granted job allocation ".data with
  | some r =>
    let ds := takeDigitsChars r
    if ds.isEmpty then none else some (String.mk ds)
  | none =>
    match dropPrefixChars line.data "salloc: Pending job allocation ".data with
    | some r =>
      let ds := takeDigitsChars r
      if ds.isEmpty then none else some (String.mk ds)
    | none => none

/-- Parser for the salloc node-ready line (reserve_node, lines 707-719):
`salloc: Nodes n3000 are ready for job`, where the node name is one of the
letters n, g, z followed by exactly four digits. -/
def parseReadyLine (line : String) : Option String :=
  match dropPrefixChars line.data "salloc: Nodes ".data with
  | some r =>
    match r with
    | c :: d1 :: d2 :: d3 :: d4 :: rest =>
      if (c == 'n' || c == 'g' || c == 'z')
          && d1.isDigit && d2.isDigit && d3.isDigit && d4.isDigit
          && charsHasPrefix rest " are ready for job".data then
        some (String.mk [c, d1, d2, d3, d4])
      else none
    | _ => none
  | none => none

/-- Parser for one squeue line (find_nodes, lines 538-554): leading
whitespace, a digit-only job id field, six further fields, then the
node-or-placeholder field.  Returns `(job id, node name)`. -/
def squeueParse (line : String) : Option (String × String) :=
  match line.data with
  | [] => none
  | c :: _ =>
    if c == ' ' then
      let ts := tokens line
      match ts.get? 0, ts.get? 7 with
      | some t0, some t7 => if allDigits t0 then some (t0, t7) else none
      | _, _ => none
    else none

/-- Parser for the `L:127.0.0.1:S` port field of a tunnel command line
(get_port_forwards, lines 878-881). -/
def parsePortSpec (t : String) : Option (Nat × Nat) :=
  let cs := t.data
  let lnDs := takeDigitsChars cs
  if lnDs.isEmpty then none
  else
    match dropPrefixChars (cs.drop lnDs.length) ":127.0.0.1:".data with
    | some r =>
      let snDs := takeDigitsChars r
      if snDs.isEmpty then none
      else some (charsToNat lnDs, charsToNat snDs)
    | none => none

/-- Parser for one `ps x | grep ssh | grep node` line (get_port_forwards,
lines 871-886): lines containing the grep command itself are skipped; a
match has four arbitrary fields followed by `ssh -N -f -L L:127.0.0.1:S`.
Returns `(login port, subnode port)`. -/
def parsePsForwardLine (cmdStr line : String) : Option (Nat × Nat) :=
  if containsStr line cmdStr then none
  else
    let ts := tokens line
    match ts.get? 4, ts.get? 5, ts.get? 6, ts.get? 7, ts.get? 8 with
    | some a, some b, some c, some d, some e =>
      if a == "ssh" && b == "-N" && c == "-f" && d == "-L" then parsePortSpec e
      else none
    | _, _, _, _, _ => none

/-- Python int() applied to the text before the first space of a
`ps x | grep vnc` line (repair, line 988): that text must form a number;
`none` models the `ValueError` raised otherwise. -/
def parsePsPid (line : String) : Option Nat :=
  parseNat (String.mk (line.data.takeWhile (fun c => c != ' ')))

/-- Helper for the `vnc\s+:(digits)` search: expects one or more whitespace
characters, then a colon, then the display digits. -/
def wsColonDigits (cs : List Char) : Option Nat :=
  match cs with
  | c :: rest =>
    if c.isWhitespace then
      match rest.dropWhile Char.isWhitespace with
      | ':' :: tl =>
        let ds := takeDigitsChars tl
        if ds.isEmpty then none else some (charsToNat ds)
      | _ => none
    else none
  | [] => none

/-- Leftmost occurrence search for the repair regex `vnc\s+:(digits)`
(repair_ln_sn_port_forwards, lines 993-997). -/
def vncSearch : List Char → Option Nat
  | [] => none
  | c :: rest =>
    if c == 'v' then
      match rest with
      | 'n' :: 'c' :: tail =>
        match wsColonDigits tail with
        | some d => some d
        | none => vncSearch rest
      | _ => vncSearch rest
    else vncSearch rest

/-- Display number of the vnc server process named in a `ps` line. -/
def findVncDisp (line : String) : Option Nat :=
  vncSearch line.data

/-- Parser for `scontrol listpids` output (SubNode.list_pids, lines
269-287): header lines containing `PID` are skipped, a line starting with a
digit contributes the number before its first space.  A line starting with
a digit whose first field is not numeric would raise `ValueError` in the
source; such lines do not occur in `scontrol` output and are skipped here. -/
def listPids : List String → List Nat
  | [] => []
  | line :: rest =>
    if containsStr line "PID" then listPids rest
    else
      match line.data with
      | [] => listPids rest
      | c :: _ =>
        if c.isDigit then
          match parseNat (String.mk (line.data.takeWhile (fun ch => ch != ' '))) with
          | some pid => pid :: listPids rest
          | none => listPids rest
        else listPids rest

/-- Discovered allocation entry: the fields of a `SubNode` object that
discovery fills in (name and Slurm job id, both strings as in the source;
the regex groups are strings and `SubNode.__init__` stores them as-is). -/
structure SubNodeR where
  name : String
  jobId : String
deriving DecidableEq

/-- Warning printed by find_nodes (line 558) for a `(Resources)` queue entry. -/
def resourcesWarning (jobId : String) : String :=
  "Warning: Already allocating node with job " ++ jobId

/-- Warning printed by find_nodes (line 566) for a QOS placeholder entry. -/
def qosWarning (jobId : String) : String :=
  "Warning: job " ++ jobId ++ " needs to be killed"

/-- Result of find_nodes: the returned value (`none` models the Python
`None` returned for an empty set, line 534-536) together with the warnings
printed along the way.  The Python set is rendered as a list in line
order (a deterministic rendition of the unordered set). -/
structure FindNodesResult where
  nodes : Option (List SubNodeR)
  warnings : List String
deriving DecidableEq

/-- Loop body of LoginNode.find_nodes (lines 522-578) over the squeue
output lines.  A line containing the login is parsed with the anchored
regex; a failed parse models the `assert match is not None` on line 552.
Placeholder names containing `Resources` or `QOS` only trigger a warning
(and a `proc.kill()` of the producer, which does not drop lines already
buffered); the entry itself is still added to the returned set on lines
576-577. -/
def findNodesGo (login : String) : List String → List SubNodeR → List String →
    Except String FindNodesResult
  | [], acc, ws => .ok ⟨if acc.isEmpty then none else some acc, ws⟩
  | line :: rest, acc, ws =>
    if containsStr line login then
      match squeueParse line with
      | none => .error "AssertionError: find_nodes pattern"
      | some (jobId, name) =>
        let ws2 :=
          if containsStr name "Resources" then ws ++ [resourcesWarning jobId]
          else if containsStr name "QOS" then ws ++ [qosWarning jobId]
          else ws
        findNodesGo login rest (acc ++ [⟨name, jobId⟩]) ws2
    else findNodesGo login rest acc ws

/-- LoginNode.find_nodes over the output of `squeue | grep login | grep
job_name`. -/
def findNodes (login : String) (lines : List String) : Except String FindNodesResult :=
  findNodesGo login lines [] []

/-- Port-forward map for one node: association list from subnode port to
login-node port in insertion order (a Python dict). -/
abbrev PortMap := List (Nat × Nat)

/-- Map from node name to its port-forward map (the `node_port_map`). -/
abbrev NodePortMap := List (String × PortMap)

/-- Python dict update `d[k] = v`: overwrite in place or append. -/
def pmInsert (pm : PortMap) (sn ln : Nat) : PortMap :=
  if (pm.lookup sn).isSome then
    pm.map (fun e => if e.1 == sn then (sn, ln) else e)
  else pm ++ [(sn, ln)]

/-- Python dict update for the outer node map. -/
def npmInsert (m : NodePortMap) (k : String) (v : PortMap) : NodePortMap :=
  if (m.lookup k).isSome then
    m.map (fun e => if e.1 == k then (k, v) else e)
  else m ++ [(k, v)]

/-- The grep command string whose own `ps` line is skipped
(get_port_forwards, line 871). -/
def psGrepCmd (name : String) : String :=
  "ps x | grep ssh | grep " ++ name

/-- Port map of one node built from its `ps` listing (get_port_forwards
inner loop, lines 872-886). -/
def buildPortMap (cmdStr : String) (lines : List String) : PortMap :=
  lines.foldl
    (fun pm line =>
      match parsePsForwardLine cmdStr line with
      | some (ln, sn) => pmInsert pm sn ln
      | none => pm)
    []

/-- LoginNode.get_port_forwards (lines 845-888): for each discovered node
whose name does not contain an opening parenthesis, record the port map
parsed from the local tunnel-process listing `psOf name`. -/
def getPortForwards (nodes : List SubNodeR) (psOf : String → List String) : NodePortMap :=
  nodes.foldl
    (fun m n =>
      if containsStr n.name "(" then m
      else npmInsert m n.name (buildPortMap (psGrepCmd n.name) (psOf n.name)))
    []

/-- The pid read for a display from the bookkeeping files: the source
tries `get_vnc_pid(short name, display)` first and falls back to
`get_vnc_pid(full hostname, display)` (get_job_port_forward, lines
904-907).  `pidOf` abstracts the glob over pid files in the shared home
directory; the display argument is an integer because the source computes
`vnc_port - BASE_VNC_PORT` with Python integers. -/
def pidCand (pidOf : String → Int → Option Nat) (name : String) (d : Int) : Option Nat :=
  match pidOf name d with
  | some pid => some pid
  | none => pidOf (name ++ ".hyak.local") d

/-- Liveness confirmation for one candidate port (get_job_port_forward,
lines 899-912): a pid must be read from a bookkeeping file and that pid
must appear in the pid set of the allocation (`scontrol listpids`). -/
def liveCheck (pidOf : String → Int → Option Nat) (pids : List Nat)
    (name : String) (d : Int) : Bool :=
  match pidCand pidOf name d with
  | some pid => decide (pid ∈ pids)
  | none => false

/-- LoginNode.get_job_port_forward (lines 890-913): gated on the job still
having time left, it returns the first port-map entry whose derived
display passes the liveness confirmation, as the pair
`(subnode port, login port)`; candidates failing confirmation are skipped
and `none` is returned when none passes. -/
def getJobPortForward (timeLeft : Option String) (pm : PortMap)
    (pidOf : String → Int → Option Nat) (pids : List Nat) (name : String) :
    Option (Nat × Nat) :=
  if timeLeft.isSome then
    pm.find? (fun e => liveCheck pidOf pids name ((e.1 : Int) - (BASE_VNC_PORT : Int)))
  else none

/-- One row of the status report, together with the mutation print_status
performs on the node object.  `displayAssigned` records the value written
to `node.vnc_display_number` on line 957 (which is
`vnc_port + BASE_VNC_PORT` in the source). -/
structure StatusRow where
  jobId : String
  name : String
  timeLeft : Option String
  vncActive : Bool
  vncPort : Option Nat
  mappedPort : Option Nat
  displayAssigned : Option Int
deriving DecidableEq

/-- Row printed for a job with no confirmed forward. -/
def inactiveRow (n : SubNodeR) (tl : Option String) : StatusRow :=
  ⟨n.jobId, n.name, tl, false, none, none, none⟩

/-- Row printed for a job with a confirmed forward `(p, lp)`; the node
object additionally gets `vnc_display_number := p + BASE_VNC_PORT`
(line 957 of the source, faithfully including its sign). -/
def activeRow (n : SubNodeR) (tl : Option String) (p lp : Nat) : StatusRow :=
  ⟨n.jobId, n.name, tl, true, some p, some lp, some ((p : Int) + (BASE_VNC_PORT : Int))⟩

/-- Body of the print_status loop for one node (lines 948-970).  The
Python guard `if node_port_map and node_port_map[node.name]` first tests
the dict for nonemptiness and then indexes it, so a nonempty map lacking
the node name raises `KeyError` (modelled as `.error`).  On a confirmed
forward the entry is popped from the port map. -/
def statusStep (pidOf : String → Int → Option Nat) (pidsOf : String → List Nat)
    (timeLeftOf : String → Option String) (n : SubNodeR) (m : NodePortMap) :
    Except String (StatusRow × NodePortMap) :=
  if m.isEmpty then .ok (inactiveRow n (timeLeftOf n.jobId), m)
  else
    match m.lookup n.name with
    | none => .error "KeyError"
    | some pm =>
      if pm.isEmpty then .ok (inactiveRow n (timeLeftOf n.jobId), m)
      else
        match getJobPortForward (timeLeftOf n.jobId) pm pidOf (pidsOf n.jobId) n.name with
        | some (p, lp) =>
          .ok (activeRow n (timeLeftOf n.jobId) p lp,
               m.map (fun e =>
                 if e.1 == n.name then (e.1, pm.filter (fun q => decide (q.1 ≠ p))) else e))
        | none => .ok (inactiveRow n (timeLeftOf n.jobId), m)

/-- LoginNode.print_status (lines 941-970) over the discovered node set,
threading the port map through the per-node pops. -/
def printStatus (pidOf : String → Int → Option Nat) (pidsOf : String → List Nat)
    (timeLeftOf : String → Option String) :
    List SubNodeR → NodePortMap → Except String (List StatusRow)
  | [], _ => .ok []
  | n :: rest, m =>
    match statusStep pidOf pidsOf timeLeftOf n m with
    | .error e => .error e
    | .ok (row, m2) =>
      match printStatus pidOf pidsOf timeLeftOf rest m2 with
      | .error e => .error e
      | .ok rows => .ok (row :: rows)

/-- Inline scan of the salloc output stream (reserve_node, lines 688-723):
folds over the streamed lines, capturing the job id from a Pending/Granted
line and breaking with `alloc_stat = True` on a node-ready line.  Returns
`(captured job id, captured node name, alloc_stat)`. -/
def sallocScan : List String → Option String → Option String × Option String × Bool
  | [], jid => (jid, none, false)
  | line :: rest, jid =>
    if containsStr line "Pending" || containsStr line "Granted" then
      match parseAllocLine line with
      | some j => sallocScan rest (some j)
      | none => sallocScan rest jid
    else if containsStr line "are ready for job" then
      match parseReadyLine line with
      | some nm => (jid, some nm, true)
      | none => sallocScan rest jid
    else sallocScan rest jid

/-- LoginNode.reserve_node (lines 635-756) after the salloc stream:
when the stream ended without the node-ready line, the fallback queries
the scheduler queue (find_nodes) for an entry with the captured job id
(lines 729-751).  `.error` models an uncaught Python exception: the
`assert` on line 552, or the `TypeError` raised on line 735 when
find_nodes returned `None` and the code iterates it.  `.ok none` is the
reported failure, `.ok (some node)` the reserved subnode. -/
def reserveNode (login : String) (sallocLines squeueLines : List String) :
    Except String (Option SubNodeR) :=
  match sallocScan sallocLines none with
  | (jid?, name?, allocStat) =>
    if allocStat then
      match jid?, name? with
      | some j, some nm => .ok (some ⟨nm, j⟩)
      | _, _ => .error "AssertionError: job id missing"
    else
      match jid? with
      | none => .ok none
      | some j =>
        match findNodes login squeueLines with
        | .error e => .error e
        | .ok fr =>
          match fr.nodes with
          | none => .error "TypeError: NoneType object is not iterable"
          | some ns =>
            match ns.find? (fun n => n.jobId == j) with
            | some n => .ok (some ⟨n.name, j⟩)
            | none => .ok none

/-- Scan of `ps x | grep vnc` on one node during repair
(repair_ln_sn_port_forwards, lines 983-1008).  For each line whose leading
number is a pid of the allocation, the display is extracted with the
`vnc\s+:(digits)` search (a failed search models the `assert` on line 998),
a fresh local port is requested (`getPort` indexed by the running count of
`get_port()` calls), and on success a forward
`(local port, BASE_VNC_PORT + display)` is created.  A missing free port
prints an error and continues.  `.error` models the uncaught `ValueError`
or `AssertionError`. -/
def repairScan (pids : List Nat) (getPort : Nat → Option Nat) :
    List String → Nat → Except String (List (Nat × Nat) × Nat)
  | [], cnt => .ok ([], cnt)
  | line :: rest, cnt =>
    match parsePsPid line with
    | none => .error "ValueError: invalid literal for int"
    | some pid =>
      if pid ∈ pids then
        match findVncDisp line with
        | none => .error "AssertionError: repair vnc pattern"
        | some d =>
          match getPort cnt with
          | none => repairScan pids getPort rest (cnt + 1)
          | some p =>
            match repairScan pids getPort rest (cnt + 1) with
            | .error e => .error e
            | .ok (fs, cnt2) => .ok ((p, BASE_VNC_PORT + d) :: fs, cnt2)
      else repairScan pids getPort rest cnt

/-- Repair treatment of one node (lines 978-1008): the guard
`if node_port_map and node_port_map[node.name]` makes the node a no-op
when the map is nonempty and has a nonempty entry for it (printing that a
valid forward already exists), raises `KeyError` when the nonempty map
lacks the key, and otherwise rescans the node process table. -/
def repairNode (mapNonempty : Bool) (pmLookup : Option PortMap) (pids : List Nat)
    (psLines : List String) (getPort : Nat → Option Nat) (cnt : Nat) :
    Except String (List (Nat × Nat) × Nat) :=
  if mapNonempty then
    match pmLookup with
    | none => .error "KeyError"
    | some pm =>
      if pm.isEmpty then repairScan pids getPort psLines cnt
      else .ok ([], cnt)
  else repairScan pids getPort psLines cnt

/-- LoginNode.repair_ln_sn_port_forwards (lines 972-1008) over the node
set, returning the list of created forwards as
`(node name, local port, subnode port)` triples, threading the
`get_port()` call counter. -/
def repairAll (pidsOf : String → List Nat) (psOf : String → List String)
    (getPort : Nat → Option Nat) (m : NodePortMap) :
    List SubNodeR → Nat → Except String (List (String × Nat × Nat))
  | [], _ => .ok []
  | n :: rest, cnt =>
    match repairNode (!m.isEmpty) (m.lookup n.name) (pidsOf n.jobId) (psOf n.name)
        getPort cnt with
    | .error e => .error e
    | .ok (fs, cnt2) =>
      match repairAll pidsOf psOf getPort m rest cnt2 with
      | .error e => .error e
      | .ok rest2 => .ok (fs.map (fun f => (n.name, f.1, f.2)) ++ rest2)

/-- Polling loop of create_port_forward (lines 820-829), fuelled by the
remaining loop iterations: while fewer than 20 poll attempts have run and
the port has not been observed in use, re-check the local listening set
(`check i` is true when the i-th netstat check observes the port bound;
check 0 is the initial check before the loop on line 822).  The guard
`count < 20` makes 20 units of fuel exact. -/
def pfLoop (check : Nat → Bool) : Nat → Nat → Bool → Bool
  | 0, _, portUsed => portUsed
  | fuel + 1, count, portUsed =>
    if count < 20 ∧ portUsed = false then pfLoop check fuel (count + 1) (check (count + 1))
    else portUsed

/-- LoginNode.create_port_forward (lines 799-843): after spawning the
background ssh tunnel (whose shell exit status is `status`), poll the
listening-socket table; the call returns `true` exactly when the final
observation saw the port bound. -/
def createPortForward (status : Nat) (check : Nat → Bool) : Bool :=
  if status = 0 then pfLoop check 20 0 (check 0) else false

/-- Outcome of the tail of the create flow in main (lines 1320-1341). -/
inductive CreateTailResult where
  | done (port : Nat)
  | cancelled (jobId : String)
deriving DecidableEq

/-- Tail of the create command in main after the VNC session started
(lines 1320-1341): a missing free local port, or a failed
create_port_forward, cancels the allocation (`scancel job_id`) and exits
nonzero. -/
def createFlowTail (jobId : String) (u2hPort : Option Nat) (forwardOk : Bool) :
    CreateTailResult :=
  match u2hPort with
  | none => .cancelled jobId
  | some p => if forwardOk then .done p else .cancelled jobId

/-- Observable remote state touched by SubNode.kill_vnc: the vncserver
sessions of the node (active and stale display ids as listed by
`vncserver -list`), the file names in the shared `~/.vnc` directory, and
the entry names of the two remote socket directories. -/
structure VncState where
  active : List String
  stale : List String
  vncDir : List String
  x11 : List String
  ice : List String
deriving DecidableEq

/-- Bookkeeping pid file for the full hostname (line 500). -/
def hostPidFile (name d : String) : String :=
  name ++ ".hyak.local:" ++ d ++ ".pid"

/-- Bookkeeping pid file for the short node name (line 504). -/
def shortPidFile (name d : String) : String :=
  name ++ ":" ++ d ++ ".pid"

/-- Absolute path of an entry of /tmp/.X11-unix. -/
def x11Path (e : String) : String := "/tmp/.X11-unix/" ++ e

/-- Absolute path of an entry of /tmp/.ICE-unix. -/
def icePath (e : String) : String := "/tmp/.ICE-unix/" ++ e

/-- SubNode.kill_vnc with a display number (lines 476-509): run
`vncserver -kill :d` (the external server drops the session entry),
best-effort remove the two pid files, and remove the socket path
`/tmp/.X11-unix/d` (the source omits the X prefix of the real socket
name).  Every removal is wrapped in try/except or `rm -f`, so the
operation is total: a second call on an absent session completes without
error. -/
def killDisplay (name d : String) (s : VncState) : VncState :=
  { active := s.active.filter (fun x => decide (x ≠ d))
    stale := s.stale.filter (fun x => decide (x ≠ d))
    vncDir := s.vncDir.filter
      (fun f => decide (f ≠ hostPidFile name d ∧ f ≠ shortPidFile name d))
    x11 := s.x11.filter (fun e => decide (e ≠ d))
    ice := s.ice }

/-- Whether `vncserver -kill` printed its success line: the external
server reports success exactly when a live session was killed. -/
def killedFlag (d : String) (s : VncState) : Bool :=
  decide (d ∈ s.active)

/-- Sequential kills of a list of displays (the kill-all loop,
lines 450-458). -/
def foldKill (name : String) (ds : List String) (s : VncState) : VncState :=
  ds.foldl (fun st d => killDisplay name d st) s

/-- File-removal targets built by the kill-all socket sweep
(lines 466-475): the entries of BOTH directories are prefixed with the
/tmp/.X11-unix directory (the source reuses `x11_unix` for the ICE entries
on line 474, verbatim here). -/
def killAllTargets (x11Entries iceEntries : List String) : List String :=
  x11Entries.map x11Path ++ iceEntries.map x11Path

/-- Removal of .pid files matched by the glob `~/.vnc/*.pid`
(lines 460-465). -/
def globPidFilter (l : List String) : List String :=
  l.filter (fun f => decide (¬ strEndsWith f ".pid" = true))

/-- SubNode.kill_vnc with display omitted (lines 445-475): kill every
active and stale display individually, remove every `*.pid` bookkeeping
file, then remove the constructed socket targets from the two
directories. -/
def killAllNode (name : String) (s : VncState) : VncState :=
  let s1 := foldKill name (s.active ++ s.stale) s
  let targets := killAllTargets s1.x11 s1.ice
  { active := s1.active
    stale := s1.stale
    vncDir := globPidFilter s1.vncDir
    x11 := s1.x11.filter (fun e => decide (x11Path e ∉ targets))
    ice := s1.ice.filter (fun e => decide (icePath e ∉ targets)) }

/-- Observable outcome of the `kill job_id` command dispatch in main
(lines 1377-1401). -/
structure KillCmdResult where
  killedJob : Option String
  killedDisplay : Option Int
  cancelled : Option String
  exitCode : Nat
deriving DecidableEq

/-- The `kill job_id` branch of main (lines 1377-1401): scan the
discovered node set for the first node whose job id matches
`re.match(str(node.job_id), str(args.job_id))` — that is, whose job id is
a string PREFIX of the supplied id — kill that node's confirmed VNC
session if any (`pfOf` abstracts get_job_port_forward), cancel the
SUPPLIED job id, and exit 0; if no entry matches, print the not-found
error and exit 1 without cancelling anything. -/
def killCmd (nodeSet : Option (List SubNodeR)) (argJobId : String)
    (pfOf : String → String → Option (Nat × Nat)) : KillCmdResult :=
  match nodeSet with
  | some nodes =>
    match nodes.find? (fun n => strHasPrefix argJobId n.jobId) with
    | some n =>
      { killedJob := some n.jobId
        killedDisplay := (pfOf n.jobId n.name).map
          (fun pf => (pf.1 : Int) - (BASE_VNC_PORT : Int))
        cancelled := some argJobId
        exitCode := 0 }
    | none => ⟨none, none, none, 1⟩
  | none => ⟨none, none, none, 1⟩

/-- C2, counterexample.  A status/discovery query whose squeue output
carries the placeholder `(Resources)` does NOT exclude that entry from the
returned node set: find_nodes adds it (with its warning) to the set, the
port-forward map built by get_port_forwards skips it, and print_status on
the resulting mixed set then raises `KeyError` when it indexes the
nonempty map with the placeholder name — the query crashes instead of
surfacing only a warning. -/
theorem placeholder_kept_counterexample :
    findNodes "hansem7"
        [" 870400 compute-h      vnc  hansem7 PD       0:00      1 (Resources)",
         " 864877 compute-h      vnc  hansem7  R       4:05      1 n3000"] =
      .ok ⟨some [⟨"(Resources)", "870400"⟩, ⟨"n3000", "864877"⟩],
           [resourcesWarning "870400"]⟩
    ∧ getPortForwards [⟨"(Resources)", "870400"⟩, ⟨"n3000", "864877"⟩]
        (fun _ => ["1974577 ?        Ss     0:20 ssh -N -f -L 5902:127.0.0.1:5902 n3065.hyak.local"]) =
      [("n3000", [(5902, 5902)])]
    ∧ printStatus (fun _ _ => none) (fun _ => []) (fun _ => some "3:59")
        [⟨"(Resources)", "870400"⟩, ⟨"n3000", "864877"⟩]
        [("n3000", [(5902, 5902)])] = .error "KeyError" :=
  ⟨rfl, rfl, rfl⟩

/-- C3.  Port/display invariant after the status display: print_status
(line 957) assigns `vnc_display_number := vnc_port + BASE_VNC_PORT`
instead of subtracting, so for a confirmed forward on subnode port 5901
the session object ends with display number 11801 and the invariant
`vnc_port = BASE_VNC_PORT + vnc_display_number` fails (5901 is not
5900 + 11801).  The class docstring (line 226) states
`vnc_port: vnc_display_number + BASE_VNC_PORT`, so the code contradicts
its own documentation. -/
theorem status_display_assignment_bug :
    printStatus (fun h d => if h == "n3000" && d == 1 then some 7280 else none)
        (fun _ => [7280]) (fun _ => some "3:59")
        [⟨"n3000", "864877"⟩] [("n3000", [(5901, 5900)])] =
      .ok [activeRow ⟨"n3000", "864877"⟩ (some "3:59") 5901 5900]
    ∧ (activeRow ⟨"n3000", "864877"⟩ (some "3:59") 5901 5900).vncPort = some 5901
    ∧ (activeRow ⟨"n3000", "864877"⟩ (some "3:59") 5901 5900).displayAssigned = some 11801
    ∧ ¬ ((5901 : Int) = (BASE_VNC_PORT : Int) + 11801) :=
  ⟨rfl, rfl, rfl, by decide⟩

/-- C4.  The reserve fallback: when the salloc stream ends after a
Pending line and the scheduler queue still lists the job, the fallback
reads the node name from the matching queue entry and the call succeeds;
but when the queue lists nothing at all, find_nodes returns `None` and
reserve_node iterates it (line 735), raising `TypeError` instead of
returning `None` as its docstring promises. -/
theorem reserve_fallback_crash_and_success :
    reserveNode "hansem7" ["salloc: Pending job allocation 864875"] [] =
      .error "TypeError: NoneType object is not iterable"
    ∧ reserveNode "hansem7" ["salloc: Pending job allocation 864875"]
        [" 864875 compute-h      vnc  hansem7  R       4:05      1 n3000"] =
      .ok (some ⟨"n3000", "864875"⟩) :=
  ⟨rfl, rfl⟩

/-- C7.  Kill-all teardown and the ICE sockets: the socket sweep of
kill_vnc builds the removal paths for the /tmp/.ICE-unix entries under
/tmp/.X11-unix (line 474 reuses `x11_unix`), so the ICE socket files are
never removed: on a node with sessions 1 (active) and 2 (stale), pid
files, X11 sockets X1 and X2, and an ICE socket, the final state still
contains the ICE socket, and the path /tmp/.ICE-unix/ice-sock is never a
removal target.  The task list of the source (line 158, marked done)
says all owned socket files in /tmp/.ICE-unix/ are deleted. -/
theorem kill_all_ice_sockets_left_behind :
    killAllTargets ["X1", "X2"] ["ice-sock"] =
      ["/tmp/.X11-unix/X1", "/tmp/.X11-unix/X2", "/tmp/.X11-unix/ice-sock"]
    ∧ (killAllTargets ["X1", "X2"] ["ice-sock"]).contains "/tmp/.ICE-unix/ice-sock" = false
    ∧ killAllNode "n3000"
        ⟨["1"], ["2"], ["n3000.hyak.local:1.pid", "n3000:2.pid", "passwd"],
         ["X1", "X2"], ["ice-sock"]⟩ =
      ⟨[], [], ["passwd"], [], ["ice-sock"]⟩ :=
  ⟨rfl, rfl, rfl⟩

/-- C8, counterexample.  Per-display kill is idempotent and total, but
the end state is not socket-free: kill_vnc removes the path
/tmp/.X11-unix/1 (line 508, without the X prefix of the real socket
name), so the session display socket X1 survives both calls — the claimed
end state with no socket file is false. -/
theorem kill_twice_socket_left_counterexample :
    killDisplay "n3000" "1"
        (killDisplay "n3000" "1" ⟨["1"], [], ["n3000.hyak.local:1.pid"], ["X1"], []⟩) =
      killDisplay "n3000" "1" ⟨["1"], [], ["n3000.hyak.local:1.pid"], ["X1"], []⟩
    ∧ (killDisplay "n3000" "1" ⟨["1"], [], ["n3000.hyak.local:1.pid"], ["X1"], []⟩).active = []
    ∧ (killDisplay "n3000" "1" ⟨["1"], [], ["n3000.hyak.local:1.pid"], ["X1"], []⟩).vncDir = []
    ∧ (killDisplay "n3000" "1" ⟨["1"], [], ["n3000.hyak.local:1.pid"], ["X1"], []⟩).x11 = ["X1"] :=
  ⟨rfl, rfl, rfl, rfl⟩

/-- C9.  The kill command matches the discovered jobs against the
supplied id with `re.match(str(node.job_id), str(args.job_id))`, a string
PREFIX test: with discovered job 5 and supplied id 50, the command kills
job 5's VNC session and cancels id 50 with exit 0, although no discovered
allocation has id 50; the exact-match NotFound path (discovered job 7,
supplied 50) correctly exits 1 and cancels nothing. -/
theorem kill_job_prefix_match_bug :
    killCmd (some [⟨"n3000", "5"⟩]) "50" (fun _ _ => some (5901, 5900)) =
      ⟨some "5", some 1, some "50", 0⟩
    ∧ ¬ ("5" = "50")
    ∧ killCmd (some [⟨"n3000", "7"⟩]) "50" (fun _ _ => some (5901, 5900)) =
      ⟨none, none, none, 1⟩ :=
  ⟨rfl, by decide, rfl⟩

theorem pfLoop_spec (check : Nat → Bool) :
    ∀ fuel count, fuel + count = 20 →
      (pfLoop check fuel count (check count) = true ↔
        ∃ i, count ≤ i ∧ i ≤ 20 ∧ check i = true) := by
  intro fuel
  induction fuel with
  | zero =>
    intro count hc
    have h20 : count = 20 := by omega
    subst h20
    simp only [pfLoop]
    constructor
    · intro h; exact ⟨20, le_refl _, le_refl _, h⟩
    · rintro ⟨i, h1, h2, h3⟩
      have : i = 20 := le_antisymm h2 h1
      subst this
      exact h3
  | succ fuel ih =>
    intro count hc
    have hlt : count < 20 := by omega
    cases hcc : check count with
    | true =>
      simp only [pfLoop, hcc]
      constructor
      · intro _; exact ⟨count, le_refl _, by omega, hcc⟩
      · intro _; simp
    | false =>
      simp only [pfLoop, hcc]
      rw [if_pos ⟨hlt, trivial⟩]
      rw [ih (count + 1) (by omega)]
      constructor
      · rintro ⟨i, h1, h2, h3⟩; exact ⟨i, by omega, h2, h3⟩
      · rintro ⟨i, h1, h2, h3⟩
        refine ⟨i, ?_, h2, h3⟩
        rcases Nat.eq_or_lt_of_le h1 with h | h
        · subst h; rw [hcc] at h3; cases h3
        · omega

/-- C6.  Forward creation: create_port_forward declares success exactly
when the ssh spawn exited 0 and some netstat check within the bounded
polling window (the initial check plus at most 20 one-second polls,
checks 0 through 20) observed the local port in the listening set; and in
the create flow of main a failed forward creation cancels the allocation
(rolls back upstream). -/
theorem create_port_forward_poll_spec :
    (∀ (status : Nat) (check : Nat → Bool),
      createPortForward status check = true ↔
        status = 0 ∧ ∃ i, i ≤ 20 ∧ check i = true)
    ∧ (∀ (jid : String) (p : Nat),
        createFlowTail jid (some p) false = .cancelled jid) := by
  constructor
  · intro status check
    unfold createPortForward
    by_cases hs : status = 0
    · rw [if_pos hs]
      rw [pfLoop_spec check 20 0 rfl]
      constructor
      · rintro ⟨i, _, h2, h3⟩; exact ⟨hs, i, h2, h3⟩
      · rintro ⟨_, i, h2, h3⟩; exact ⟨i, Nat.zero_le _, h2, h3⟩
    · rw [if_neg hs]
      constructor
      · intro h; cases h
      · rintro ⟨h, _⟩; exact absurd h hs
  · intro jid p; rfl

/-- Witness for create_port_forward_poll_spec: with a healthy spawn and a
port first observed at the 3rd poll the call succeeds, and a failed
forward creation cancels allocation 864877. -/
theorem create_port_forward_poll_spec_witness :
    createPortForward 0 (fun i => decide (i = 3)) = true
    ∧ createFlowTail "864877" (some 5901) false = .cancelled "864877" :=
  ⟨(create_port_forward_poll_spec.1 0 (fun i => decide (i = 3))).mpr
      ⟨rfl, 3, by omega, by decide⟩,
   create_port_forward_poll_spec.2 "864877" 5901⟩

theorem vncState_eq_of (a b : VncState) (h1 : a.active = b.active)
    (h2 : a.stale = b.stale) (h3 : a.vncDir = b.vncDir) (h4 : a.x11 = b.x11)
    (h5 : a.ice = b.ice) : a = b := by
  cases a
  cases b
  simp_all

theorem filter_nil_of {α : Type} (p : α → Bool) :
    ∀ l : List α, (∀ a ∈ l, p a = false) → l.filter p = [] := by
  intro l h
  induction l with
  | nil => rfl
  | cons a t ih =>
    have ha := h a (by simp)
    simp only [List.filter_cons, ha, Bool.false_eq_true, if_false]
    exact ih (fun x hx => h x (by simp [hx]))

theorem filter_self_of {α : Type} (p : α → Bool) :
    ∀ l : List α, (∀ a ∈ l, p a = true) → l.filter p = l := by
  intro l h
  induction l with
  | nil => rfl
  | cons a t ih =>
    have ha := h a (by simp)
    simp only [List.filter_cons, ha, if_true]
    rw [ih (fun x hx => h x (by simp [hx]))]

theorem filter_idem {α : Type} (p : α → Bool) (l : List α) :
    (l.filter p).filter p = l.filter p :=
  filter_self_of p _ (fun _a ha => (List.mem_filter.mp ha).2)

theorem string_append_ne (p q a b : String) (hlen : p.data.length = q.data.length)
    (hne : p ≠ q) : p ++ a ≠ q ++ b := by
  obtain ⟨pd⟩ := p
  obtain ⟨qd⟩ := q
  obtain ⟨ad⟩ := a
  obtain ⟨bd⟩ := b
  intro h
  have hd : pd ++ ad = qd ++ bd := congrArg String.data h
  have hpq := List.append_inj hd hlen
  exact hne (congrArg String.mk hpq.1)

theorem icePath_ne_x11Path (e f : String) : icePath e ≠ x11Path f :=
  string_append_ne "/tmp/.ICE-unix/" "/tmp/.X11-unix/" e f (by decide) (by decide)

theorem foldKill_cons (name d : String) (ds : List String) (s : VncState) :
    foldKill name (d :: ds) s = foldKill name ds (killDisplay name d s) := rfl

theorem foldKill_ice (name : String) :
    ∀ (ds : List String) (s : VncState), (foldKill name ds s).ice = s.ice := by
  intro ds
  induction ds with
  | nil => intro s; rfl
  | cons d t ih => intro s; rw [foldKill_cons, ih]; rfl

theorem foldKill_active_nil (name : String) :
    ∀ (ds : List String) (s : VncState),
      (∀ a ∈ s.active, a ∈ ds) → (foldKill name ds s).active = [] := by
  intro ds
  induction ds with
  | nil =>
    intro s h
    have hnil : s.active = [] :=
      List.eq_nil_iff_forall_not_mem.mpr (fun a ha => by
        have := h a ha
        simp at this)
    exact hnil
  | cons d t ih =>
    intro s h
    rw [foldKill_cons]
    apply ih
    intro a ha
    simp only [killDisplay, List.mem_filter, decide_eq_true_eq] at ha
    have hm := h a ha.1
    simp only [List.mem_cons] at hm
    rcases hm with h1 | h1
    · exact absurd h1 ha.2
    · exact h1

theorem foldKill_stale_nil (name : String) :
    ∀ (ds : List String) (s : VncState),
      (∀ a ∈ s.stale, a ∈ ds) → (foldKill name ds s).stale = [] := by
  intro ds
  induction ds with
  | nil =>
    intro s h
    have hnil : s.stale = [] :=
      List.eq_nil_iff_forall_not_mem.mpr (fun a ha => by
        have := h a ha
        simp at this)
    exact hnil
  | cons d t ih =>
    intro s h
    rw [foldKill_cons]
    apply ih
    intro a ha
    simp only [killDisplay, List.mem_filter, decide_eq_true_eq] at ha
    have hm := h a ha.1
    simp only [List.mem_cons] at hm
    rcases hm with h1 | h1
    · exact absurd h1 ha.2
    · exact h1

theorem killAllNode_active (name : String) (s : VncState) :
    (killAllNode name s).active = [] :=
  foldKill_active_nil name _ s (fun _a ha => List.mem_append_left _ ha)

theorem killAllNode_stale (name : String) (s : VncState) :
    (killAllNode name s).stale = [] :=
  foldKill_stale_nil name _ s (fun _a ha => List.mem_append_right _ ha)

theorem killAllNode_vncDir (name : String) (s : VncState) :
    (killAllNode name s).vncDir =
      globPidFilter ((foldKill name (s.active ++ s.stale) s).vncDir) := rfl

theorem killAllNode_x11 (name : String) (s : VncState) :
    (killAllNode name s).x11 = [] := by
  show ((foldKill name (s.active ++ s.stale) s).x11.filter _) = []
  apply filter_nil_of
  intro e he
  have hmem : x11Path e ∈
      killAllTargets (foldKill name (s.active ++ s.stale) s).x11
        (foldKill name (s.active ++ s.stale) s).ice :=
    List.mem_append_left _ (List.mem_map_of_mem _ he)
  simp only [decide_eq_false_iff_not, not_not]
  exact hmem

theorem killAllNode_ice (name : String) (s : VncState) :
    (killAllNode name s).ice = s.ice := by
  have hfilter : ((foldKill name (s.active ++ s.stale) s).ice.filter
      (fun e => decide (icePath e ∉
        killAllTargets (foldKill name (s.active ++ s.stale) s).x11
          (foldKill name (s.active ++ s.stale) s).ice))) =
      (foldKill name (s.active ++ s.stale) s).ice := by
    apply filter_self_of
    intro e _
    simp only [decide_eq_true_eq]
    intro hmem
    simp only [killAllTargets, List.mem_append, List.mem_map] at hmem
    rcases hmem with ⟨f, _, hf⟩ | ⟨f, _, hf⟩ <;> exact icePath_ne_x11Path e f hf.symm
  show ((foldKill name (s.active ++ s.stale) s).ice.filter _) = s.ice
  rw [hfilter, foldKill_ice]

theorem killDisplay_idem (name d : String) (s : VncState) :
    killDisplay name d (killDisplay name d s) = killDisplay name d s :=
  vncState_eq_of _ _ (filter_idem _ _) (filter_idem _ _) (filter_idem _ _)
    (filter_idem _ _) rfl

theorem killAllNode_idem (name : String) (s : VncState) :
    killAllNode name (killAllNode name s) = killAllNode name s := by
  apply vncState_eq_of
  · rw [killAllNode_active, killAllNode_active]
  · rw [killAllNode_stale, killAllNode_stale]
  · rw [killAllNode_vncDir (s := killAllNode name s), killAllNode_active,
      killAllNode_stale]
    show globPidFilter (killAllNode name s).vncDir = (killAllNode name s).vncDir
    rw [killAllNode_vncDir]
    exact filter_idem _ _
  · rw [killAllNode_x11, killAllNode_x11]
  · rw [killAllNode_ice, killAllNode_ice]

/-- C8, amended.  The kill operation is idempotent: per-display kill
applied twice equals one application, kill-all applied twice equals one
application, and after a kill the display is gone from the session lists,
its two bookkeeping pid files are gone, and the second call completes
(the model is a total function) merely without the external success line
(killedFlag false) — it is not an error.  What a kill does NOT guarantee
is a socket-free end state (see the counterexample: the per-display path
removes the unprefixed socket path, and kill-all leaves the ICE files). -/
theorem kill_idempotent_spec :
    ∀ (name d : String) (s : VncState),
      killDisplay name d (killDisplay name d s) = killDisplay name d s
      ∧ killAllNode name (killAllNode name s) = killAllNode name s
      ∧ decide (d ∈ (killDisplay name d s).active) = false
      ∧ decide (hostPidFile name d ∈ (killDisplay name d s).vncDir) = false
      ∧ decide (shortPidFile name d ∈ (killDisplay name d s).vncDir) = false
      ∧ killedFlag d (killDisplay name d s) = false := by
  intro name d s
  refine ⟨killDisplay_idem name d s, killAllNode_idem name s, ?_, ?_, ?_, ?_⟩
  · simp [killDisplay]
  · simp [killDisplay]
  · simp [killDisplay]
  · simp [killedFlag, killDisplay]

/-- Witness for kill_idempotent_spec at a concrete node state. -/
theorem kill_idempotent_spec_witness :
    killAllNode "n3000"
        (killAllNode "n3000" ⟨["1"], ["2"], ["n3000:1.pid"], ["X1"], ["i1"]⟩) =
      killAllNode "n3000" ⟨["1"], ["2"], ["n3000:1.pid"], ["X1"], ["i1"]⟩
    ∧ killedFlag "1"
        (killDisplay "n3000" "1" ⟨["1"], ["2"], ["n3000:1.pid"], ["X1"], ["i1"]⟩) = false :=
  ⟨(kill_idempotent_spec "n3000" "1" ⟨["1"], ["2"], ["n3000:1.pid"], ["X1"], ["i1"]⟩).2.1,
   (kill_idempotent_spec "n3000" "1" ⟨["1"], ["2"], ["n3000:1.pid"], ["X1"], ["i1"]⟩).2.2.2.2.2⟩

/-- C10.  The kill-all bookkeeping cleanup removes EVERY file matching
`~/.vnc/*.pid` — the glob (line 460) is keyed only on the extension, not
on the node, so pid files of sessions on other nodes in the shared home
directory are deleted as well. -/
theorem kill_all_removes_every_pid_file :
    ∀ (name : String) (s : VncState) (f : String),
      f ∈ s.vncDir → strEndsWith f ".pid" = true →
      f ∉ (killAllNode name s).vncDir := by
  intro name s f _ hpid hmem
  rw [killAllNode_vncDir] at hmem
  simp [globPidFilter, List.mem_filter, hpid] at hmem

/-- Witness for kill_all_removes_every_pid_file: killing all sessions of
node n3000 deletes the pid file of a session on node n9999. -/
theorem kill_all_removes_every_pid_file_witness :
    "n9999.hyak.local:3.pid" ∉
      (killAllNode "n3000" ⟨[], [], ["n9999.hyak.local:3.pid"], [], []⟩).vncDir :=
  kill_all_removes_every_pid_file "n3000" ⟨[], [], ["n9999.hyak.local:3.pid"], [], []⟩
    "n9999.hyak.local:3.pid" (by simp) (by rfl)

theorem lookup_isEmpty_false {α : Type} (m : List (String × α)) (k : String) (v : α)
    (h : m.lookup k = some v) : m.isEmpty = false := by
  cases m with
  | nil => cases h
  | cons e t => rfl

theorem repairScan_skip (pids : List Nat) (getPort : Nat → Option Nat) :
    ∀ (pre rest : List String) (cnt : Nat),
      (∀ l ∈ pre, ∃ q, parsePsPid l = some q ∧ q ∉ pids) →
      repairScan pids getPort (pre ++ rest) cnt = repairScan pids getPort rest cnt := by
  intro pre
  induction pre with
  | nil => intro rest cnt _; rfl
  | cons l t ih =>
    intro rest cnt h
    obtain ⟨q, hq, hqn⟩ := h l (by simp)
    show repairScan pids getPort (l :: (t ++ rest)) cnt = _
    simp only [repairScan, hq]
    rw [if_neg hqn]
    exact ih rest cnt (fun x hx => h x (by simp [hx]))

theorem repairScan_none (pids : List Nat) (getPort : Nat → Option Nat)
    (ls : List String) (cnt : Nat)
    (h : ∀ l ∈ ls, ∃ q, parsePsPid l = some q ∧ q ∉ pids) :
    repairScan pids getPort ls cnt = .ok ([], cnt) := by
  have h2 := repairScan_skip pids getPort ls [] cnt h
  rw [List.append_nil] at h2
  exact h2

/-- C5.  Repair semantics.  First conjunct (no-op and second-run
idempotence): when every discovered node already has a nonempty
port-forward entry — in particular on a second run after a successful
repair with no intervening state change — repair creates zero new
forwards.  Second conjunct (creation): for a node with no forward whose
process table contains exactly one line with a pid in the allocation's
own pid set, repair creates exactly one forward whose remote port is
BASE_VNC_PORT plus the display parsed from that process line (the
session's real port, re-derived from the process table, not the
bookkeeping file), and it never touches the session itself (the model of
repair has no kill or start operation). -/
theorem repair_missing_forward_spec :
    (∀ (pidsOf : String → List Nat) (psOf : String → List String)
        (getPort : Nat → Option Nat) (m : NodePortMap) (nodes : List SubNodeR)
        (cnt : Nat),
      (∀ n ∈ nodes, ∃ pm, m.lookup n.name = some pm ∧ pm.isEmpty = false) →
      repairAll pidsOf psOf getPort m nodes cnt = .ok [])
    ∧ (∀ (name jid : String) (pids : List Nat) (pre post : List String)
        (line : String) (getPort : Nat → Option Nat) (pid d p : Nat),
      (∀ l ∈ pre, ∃ q, parsePsPid l = some q ∧ q ∉ pids) →
      (∀ l ∈ post, ∃ q, parsePsPid l = some q ∧ q ∉ pids) →
      parsePsPid line = some pid → pid ∈ pids → findVncDisp line = some d →
      getPort 0 = some p →
      repairAll (fun _ => pids) (fun _ => pre ++ line :: post) getPort []
        [⟨name, jid⟩] 0 = .ok [(name, p, BASE_VNC_PORT + d)]) := by
  constructor
  · intro pidsOf psOf getPort m nodes
    induction nodes with
    | nil => intro cnt _; rfl
    | cons n t ih =>
      intro cnt h
      obtain ⟨pm, hlk, hpm⟩ := h n (by simp)
      have hne : m.isEmpty = false := lookup_isEmpty_false m n.name pm hlk
      show repairAll pidsOf psOf getPort m (n :: t) cnt = .ok []
      simp only [repairAll, repairNode, hne, hlk, Bool.not_false, if_true, hpm,
        Bool.false_eq_true, if_false]
      rw [ih cnt (fun x hx => h x (by simp [hx]))]
      rfl
  · intro name jid pids pre post line getPort pid d p hpre hpost hline hmem hdisp hgp
    have hscan : repairScan pids getPort (pre ++ line :: post) 0 =
        .ok ([(p, BASE_VNC_PORT + d)], 1) := by
      rw [repairScan_skip pids getPort pre (line :: post) 0 hpre]
      simp only [repairScan, hline]
      rw [if_pos hmem]
      simp only [hdisp, hgp]
      rw [repairScan_none pids getPort post 1 hpost]
    show repairAll (fun _ => pids) (fun _ => pre ++ line :: post) getPort []
        [⟨name, jid⟩] 0 = _
    simp only [repairAll, repairNode, List.isEmpty_nil, Bool.not_true,
      Bool.false_eq_true, if_false, List.lookup_nil]
    rw [hscan]
    rfl

/-- Witness for repair_missing_forward_spec: a node that already has a
forward gets none, and a node with a live unforwarded Xtigervnc session
on display 1 (pid 7280 in its allocation) gets exactly the forward
5905 to 5901. -/
theorem repair_missing_forward_spec_witness :
    repairAll (fun _ => []) (fun _ => []) (fun _ => none)
        [("n3000", [(5901, 5900)])] [⟨"n3000", "864877"⟩] 0 = .ok []
    ∧ repairAll (fun _ => [7280])
        (fun _ => ["7280 ? S 0:10 Xtigervnc :1 -desktop n3000",
                   "1999 pts0 S+ 0:00 grep vnc"])
        (fun _ => some 5905) [] [⟨"n3000", "864877"⟩] 0 =
      .ok [("n3000", 5905, 5901)] := by
  constructor
  · apply repair_missing_forward_spec.1
    intro n hn
    simp only [List.mem_singleton] at hn
    subst hn
    exact ⟨[(5901, 5900)], rfl, rfl⟩
  · have h := repair_missing_forward_spec.2 "n3000" "864877" [7280] []
      ["1999 pts0 S+ 0:00 grep vnc"] "7280 ? S 0:10 Xtigervnc :1 -desktop n3000"
      (fun _ => some 5905) 7280 1 5905
      (by intro l hl; cases hl)
      (by
        intro l hl
        simp only [List.mem_singleton] at hl
        subst hl
        exact ⟨1999, rfl, by decide⟩)
      rfl (by decide) rfl rfl
    exact h

theorem gjpf_some (timeLeft : Option String) (pm : PortMap)
    (pidOf : String → Int → Option Nat) (pids : List Nat) (name : String)
    (p lp : Nat)
    (h : getJobPortForward timeLeft pm pidOf pids name = some (p, lp)) :
    ∃ pid, pidCand pidOf name ((p : Int) - (BASE_VNC_PORT : Int)) = some pid
      ∧ pid ∈ pids := by
  unfold getJobPortForward at h
  by_cases ht : timeLeft.isSome
  · rw [if_pos ht] at h
    have hp := List.find?_some h
    simp only at hp
    unfold liveCheck at hp
    cases hc : pidCand pidOf name ((p : Int) - (BASE_VNC_PORT : Int)) with
    | none => rw [hc] at hp; cases hp
    | some pid =>
      rw [hc] at hp
      simp only [decide_eq_true_eq] at hp
      exact ⟨pid, rfl, hp⟩
  · rw [if_neg ht] at h
    cases h

theorem statusStep_ok_active (pidOf : String → Int → Option Nat)
    (pidsOf : String → List Nat) (timeLeftOf : String → Option String)
    (n : SubNodeR) (m m2 : NodePortMap) (row : StatusRow)
    (h : statusStep pidOf pidsOf timeLeftOf n m = .ok (row, m2))
    (hact : row.vncActive = true) :
    row.name = n.name ∧ row.jobId = n.jobId ∧
      ∃ p lp pid, row.vncPort = some p ∧ row.mappedPort = some lp ∧
        pidCand pidOf n.name ((p : Int) - (BASE_VNC_PORT : Int)) = some pid ∧
        pid ∈ pidsOf n.jobId := by
  unfold statusStep at h
  split at h
  · simp only [Except.ok.injEq, Prod.mk.injEq] at h
    rw [← h.1] at hact
    cases hact
  · split at h
    · exact Except.noConfusion h
    · rename_i pm hlk
      split at h
      · simp only [Except.ok.injEq, Prod.mk.injEq] at h
        rw [← h.1] at hact
        cases hact
      · split at h
        · rename_i p lp hg
          simp only [Except.ok.injEq, Prod.mk.injEq] at h
          rw [← h.1]
          obtain ⟨pid, hc, hpid⟩ := gjpf_some _ _ _ _ _ _ _ hg
          exact ⟨rfl, rfl, p, lp, pid, rfl, rfl, hc, hpid⟩
        · simp only [Except.ok.injEq, Prod.mk.injEq] at h
          rw [← h.1] at hact
          cases hact

/-- C1.  Discovery/status consistency.  First conjunct: every row that
print_status reports with VNC active (and thus with a mapped login port)
carries a subnode port whose independent liveness check passed at query
time — a pid was read from the session's bookkeeping file (short name
first, then full hostname) and that pid belongs to the allocation's own
pid set.  Second conjunct: a candidate forward set in which every entry
fails the confirmation is dropped entirely — get_job_port_forward
returns none, so the job is shown inactive rather than with a broken
forward. -/
theorem discovery_active_only_if_live :
    (∀ (pidOf : String → Int → Option Nat) (pidsOf : String → List Nat)
        (timeLeftOf : String → Option String) (nodes : List SubNodeR)
        (m : NodePortMap) (rows : List StatusRow),
      printStatus pidOf pidsOf timeLeftOf nodes m = .ok rows →
      ∀ r ∈ rows, r.vncActive = true →
        ∃ p lp pid, r.vncPort = some p ∧ r.mappedPort = some lp ∧
          pidCand pidOf r.name ((p : Int) - (BASE_VNC_PORT : Int)) = some pid ∧
          pid ∈ pidsOf r.jobId)
    ∧ (∀ (timeLeft : Option String) (pm : PortMap)
        (pidOf : String → Int → Option Nat) (pids : List Nat) (name : String),
      (∀ e ∈ pm, liveCheck pidOf pids name ((e.1 : Int) - (BASE_VNC_PORT : Int)) = false) →
      getJobPortForward timeLeft pm pidOf pids name = none) := by
  constructor
  · intro pidOf pidsOf timeLeftOf nodes
    induction nodes with
    | nil =>
      intro m rows h r hr _
      simp only [printStatus, Except.ok.injEq] at h
      rw [← h] at hr
      cases hr
    | cons n t ih =>
      intro m rows h r hr hact
      unfold printStatus at h
      split at h
      · exact Except.noConfusion h
      · rename_i row0 m2 hs
        split at h
        · exact Except.noConfusion h
        · rename_i rows2 hrec
          simp only [Except.ok.injEq] at h
          rw [← h] at hr
          simp only [List.mem_cons] at hr
          rcases hr with hr | hr
          · subst hr
            obtain ⟨hname, hjob, p, lp, pid, h1, h2, h3, h4⟩ :=
              statusStep_ok_active pidOf pidsOf timeLeftOf n m m2 r hs hact
            refine ⟨p, lp, pid, h1, h2, ?_, ?_⟩
            · rw [hname]; exact h3
            · rw [hjob]; exact h4
          · exact ih m2 rows2 hrec r hr hact
  · intro timeLeft pm pidOf pids name h
    unfold getJobPortForward
    by_cases ht : timeLeft.isSome
    · rw [if_pos ht]
      apply List.find?_eq_none.mpr
      intro e he
      simp [h e he]
    · rw [if_neg ht]

/-- Witness for discovery_active_only_if_live: a concrete status query
with one node, one tunnel entry 5901 to 5900, a bookkeeping pid file
giving pid 7280 for display 1, and scontrol listpids output containing
7280, reports the job active, and the theorem recovers the passing
liveness evidence; with no pid files at all every candidate fails and
get_job_port_forward returns none. -/
theorem discovery_active_only_if_live_witness :
    (∃ p lp pid,
      (activeRow ⟨"n3000", "864877"⟩ (some "3:59") 5901 5900).vncPort = some p ∧
      (activeRow ⟨"n3000", "864877"⟩ (some "3:59") 5901 5900).mappedPort = some lp ∧
      pidCand (fun h d => if h == "n3000" && d == 1 then some 7280 else none)
        (activeRow ⟨"n3000", "864877"⟩ (some "3:59") 5901 5900).name
        ((p : Int) - (BASE_VNC_PORT : Int)) = some pid ∧
      pid ∈ listPids ["PID JOBID", "7280 864877"])
    ∧ getJobPortForward (some "3:59") [(5901, 5900)] (fun _ _ => none) [] "n3000" =
        none :=
  ⟨discovery_active_only_if_live.1
      (fun h d => if h == "n3000" && d == 1 then some 7280 else none)
      (fun _ => listPids ["PID JOBID", "7280 864877"])
      (fun _ => some "3:59")
      [⟨"n3000", "864877"⟩] [("n3000", [(5901, 5900)])]
      [activeRow ⟨"n3000", "864877"⟩ (some "3:59") 5901 5900]
      rfl (activeRow ⟨"n3000", "864877"⟩ (some "3:59") 5901 5900) (by simp) rfl,
   discovery_active_only_if_live.2 (some "3:59") [(5901, 5900)]
      (fun _ _ => none) [] "n3000" (fun e _ => rfl)⟩

theorem lookup_map_overwrite {β : Type} (m : List (String × β)) (k nm : String)
    (v : β) (h : k ≠ nm) :
    (m.map (fun e => if e.1 == k then (k, v) else e)).lookup nm = m.lookup nm := by
  induction m with
  | nil => rfl
  | cons e t ih =>
    obtain ⟨k1, v1⟩ := e
    simp only [List.map_cons]
    by_cases h1 : (k1 == k) = true
    · rw [if_pos h1]
      have hk1 : k1 = k := by simpa using h1
      subst hk1
      have hbeq : (nm == k1) = false := beq_eq_false_iff_ne.mpr (fun he => h he.symm)
      simp only [List.lookup, hbeq]
      simpa using ih
    · rw [if_neg h1]
      by_cases h2 : (nm == k1) = true
      · simp [List.lookup, h2]
      · rw [Bool.not_eq_true] at h2
        simp only [List.lookup, h2]
        simpa using ih

theorem lookup_append_single {β : Type} (m : List (String × β)) (k nm : String)
    (v : β) (h : k ≠ nm) :
    (m ++ [(k, v)]).lookup nm = m.lookup nm := by
  induction m with
  | nil =>
    have hbeq : (nm == k) = false := beq_eq_false_iff_ne.mpr (fun he => h he.symm)
    simp [List.lookup, hbeq]
  | cons e t ih =>
    obtain ⟨k1, v1⟩ := e
    by_cases h1 : (nm == k1) = true
    · simp [List.lookup, h1]
    · simp [List.lookup, h1, ih]

theorem lookup_npmInsert_ne (m : NodePortMap) (k nm : String) (v : PortMap)
    (h : k ≠ nm) : (npmInsert m k v).lookup nm = m.lookup nm := by
  unfold npmInsert
  split
  · exact lookup_map_overwrite m k nm v h
  · exact lookup_append_single m k nm v h

theorem gpf_lookup_none (psOf : String → List String) (nm : String)
    (hnm : containsStr nm "(" = true) :
    ∀ (nodes : List SubNodeR) (m : NodePortMap), m.lookup nm = none →
      (nodes.foldl
        (fun m n =>
          if containsStr n.name "(" then m
          else npmInsert m n.name (buildPortMap (psGrepCmd n.name) (psOf n.name)))
        m).lookup nm = none := by
  intro nodes
  induction nodes with
  | nil => intro m h; exact h
  | cons n t ih =>
    intro m h
    rw [List.foldl_cons]
    apply ih
    by_cases hp : containsStr n.name "(" = true
    · rw [if_pos hp]; exact h
    · rw [if_neg hp]
      rw [lookup_npmInsert_ne]
      · exact h
      · intro he
        rw [he] at hp
        exact hp hnm

/-- C2, amended.  What the code actually does with a scheduler placeholder
entry: find_nodes surfaces it as a distinct printed warning and still adds
it to the returned node set; get_port_forwards then refuses to treat any
name containing a parenthesis as a real node — no placeholder name is ever
a key of the port-forward map, so no forward is ever attributed to it
(but a status query over a mixed set can crash on the missing key, see the
counterexample). -/
theorem placeholder_warned_and_unmapped :
    (∀ (nodes : List SubNodeR) (psOf : String → List String) (nm : String),
      containsStr nm "(" = true →
      (getPortForwards nodes psOf).lookup nm = none)
    ∧ (∀ (login line jobId nm : String),
      containsStr line login = true →
      squeueParse line = some (jobId, nm) →
      containsStr nm "Resources" = true →
      findNodes login [line] =
        .ok ⟨some [⟨nm, jobId⟩], [resourcesWarning jobId]⟩) := by
  constructor
  · intro nodes psOf nm h
    exact gpf_lookup_none psOf nm h nodes [] rfl
  · intro login line jobId nm h1 h2 h3
    unfold findNodes findNodesGo
    rw [if_pos h1, h2]
    simp only [h3, if_true]
    rfl

/-- Witness for placeholder_warned_and_unmapped at the concrete
`(Resources)` squeue line. -/
theorem placeholder_warned_and_unmapped_witness :
    (getPortForwards [⟨"(Resources)", "870400"⟩, ⟨"n3000", "864877"⟩]
        (fun _ => ["1974577 ?        Ss     0:20 ssh -N -f -L 5902:127.0.0.1:5902 n3065.hyak.local"])).lookup
      "(Resources)" = none
    ∧ findNodes "hansem7"
        [" 870400 compute-h      vnc  hansem7 PD       0:00      1 (Resources)"] =
      .ok ⟨some [⟨"(Resources)", "870400"⟩], [resourcesWarning "870400"]⟩ :=
  ⟨placeholder_warned_and_unmapped.1 [⟨"(Resources)", "870400"⟩, ⟨"n3000", "864877"⟩]
      (fun _ => ["1974577 ?        Ss     0:20 ssh -N -f -L 5902:127.0.0.1:5902 n3065.hyak.local"])
      "(Resources)" (by rfl),
   placeholder_warned_and_unmapped.2 "hansem7"
      " 870400 compute-h      vnc  hansem7 PD       0:00      1 (Resources)"
      "870400" "(Resources)" (by rfl) rfl (by rfl)⟩

end Hyakvnc
